import Mathlib

/-!
Verification of the cyan-actions repository against its natural-language
specification.

Part 1 models the account-mapping script
(.github/actions/account-mapping/map_accounts.py).  Python strings are Lean
`String`s; the handful of Python string methods the scripts use are
re-implemented here by structural recursion on the character list so that
every definition evaluates inside the kernel.  A Python `set` of strings is
modelled as the duplicate-free list of its elements in first-insertion order;
since CPython's set iteration order is unspecified (hash-based), every place
the source iterates over a set is parameterised by an explicit iteration
order, constrained only to be a permutation of the set's elements.
Python dicts used for lookup are association lists.
-/

/-- The whitespace characters recognised by Python's `str.split()` /
`str.strip()` (ASCII subset; the scripts only ever see ASCII text). -/
def pyIsSpace (c : Char) : Bool :=
  c = ' ' || c = '\t' || c = '\n' || c = '\r' || c = '\x0b' || c = '\x0c'

/-- Python `str.strip()` on a character list: drop whitespace from both ends. -/
def pyStripList (cs : List Char) : List Char :=
  ((cs.dropWhile pyIsSpace).reverse.dropWhile pyIsSpace).reverse

/-- Python `str.strip()`. -/
def pyStrip (s : String) : String :=
  String.mk (pyStripList s.toList)

/-- Split a character list at every character satisfying `p`, keeping empty
pieces (the splitting behaviour of Python's `str.split(sep)` for a one-
character separator, and the raw phase of no-argument `str.split()`). -/
def splitAtPred (p : Char → Bool) : List Char → List (List Char)
  | [] => [[]]
  | c :: cs =>
    let r := splitAtPred p cs
    if p c then [] :: r
    else
      match r with
      | h :: t => (c :: h) :: t
      | [] => [[c]]

/-- Python `str.split()` with no argument: split on runs of whitespace,
discarding empty pieces. -/
def pySplitWs (s : String) : List String :=
  ((splitAtPred pyIsSpace s.toList).filter (fun t => t ≠ [])).map String.mk

/-- Python `str.split("/")` (never returns an empty list). -/
def pySplitSlash (s : String) : List String :=
  (splitAtPred (fun c => c = '/') s.toList).map String.mk

/-- `extract_directories` from map_accounts.py: for each whitespace-separated
token of `changed_files`, if the token contains a `/` (i.e. `token.split("/")`
has more than one part), add the part before the first `/` to a set.  An empty
input yields the empty set.  The resulting Python set is modelled as the
duplicate-free list of its elements in first-insertion order. -/
def extract_directories (changed_files : String) : List String :=
  if changed_files = "" then []
  else
    (pySplitWs (pyStrip changed_files)).foldl
      (fun acc tok =>
        match pySplitSlash tok with
        | p :: _ :: _ => if acc.contains p then acc else acc ++ [p]
        | _ => acc)
      []

/-- The static `directory_mapping` dict inside `determine_account_types`. -/
def directory_mapping : List (String × String) :=
  [("src", "src"), ("tests", "tests")]

/-- `determine_account_types` from map_accounts.py.  The source iterates over
the Python set of directories; that iteration order is unspecified, so the
model takes the order as the explicit list `dirOrder`. -/
def determine_account_types (dirOrder : List String) : List String :=
  dirOrder.foldl
    (fun acc d =>
      match directory_mapping.lookup d with
      | some t => acc ++ [t]
      | Option.none => acc)
    []

/-- `dirOrder` is a possible iteration order of the Python set whose elements
are those of `elems`: it lists exactly the same elements. -/
def IsIterationOrder (dirOrder elems : List String) : Prop :=
  dirOrder.Perm elems

/-- Observable outcome of one run of map_accounts.py `main`: the lines printed
to standard output (standard error is diagnostic only) and the process exit
code. -/
structure MainResult where
  stdout : List String
  exitCode : Nat
deriving DecidableEq, Repr

/-- Python `",".join(xs)`. -/
def pyJoin (sep : String) : List String → String
  | [] => ""
  | x :: xs => xs.foldl (fun acc y => acc ++ sep ++ y) x

/-- The account-number lookup loop of `main`: for each account type, look it up
under the environment's mapping; the first missing type aborts with
`sys.exit(1)` (modelled as `Option.none`). -/
def collectAccounts (envMap : List (String × String)) :
    List String → Option (List String)
  | [] => some []
  | t :: ts =>
    match envMap.lookup t with
    | Option.none => Option.none
    | some n => (collectAccounts envMap ts).map (fun ns => n :: ns)

/-- `main` from map_accounts.py, after the mappings file has been loaded
(`account_mappings`) and the changed-files set extracted; `dirOrder` is the
iteration order of that set (see `IsIterationOrder`).  The branches mirror the
source: empty account-type list prints the SKIP sentinel and returns (exit 0);
unknown environment or unknown account type exits 1; otherwise the numbers are
comma-joined and printed with `mapping_found=true`. -/
def map_accounts_main (environment : String)
    (account_mappings : List (String × List (String × String)))
    (dirOrder : List String) : MainResult :=
  let account_types := determine_account_types dirOrder
  if account_types = [] then
    { stdout := ["account_number=SKIP", "mapping_found=false"], exitCode := 0 }
  else
    match account_mappings.lookup environment with
    | Option.none => { stdout := [], exitCode := 1 }
    | some envMap =>
      match collectAccounts envMap account_types with
      | Option.none => { stdout := [], exitCode := 1 }
      | some nums =>
        { stdout := ["account_number=" ++ pyJoin "," nums,
                     "mapping_found=true"],
          exitCode := 0 }

/-- Deduplicate a list keeping the first occurrence of each element. -/
def dedupFirstAux (seen : List String) : List String → List String
  | [] => []
  | x :: xs =>
    if seen.contains x then dedupFirstAux seen xs
    else x :: dedupFirstAux (x :: seen) xs

/-- From the spec's words (claim C1), not from the source: the distinct
recognised directories of the changed-files string in the order they are
first encountered. -/
def specFirstEncounterDirs (changed_files : String) : List String :=
  (dedupFirstAux []
    ((pySplitWs (pyStrip changed_files)).filterMap
      (fun tok =>
        match pySplitSlash tok with
        | p :: _ :: _ => some p
        | _ => Option.none))).filter
    (fun d => (directory_mapping.lookup d).isSome)

/-- From the spec's words (claim C1): the `account_number=` line the claim
predicts, joining the account numbers in first-encountered directory order. -/
def specC1Line (changed_files environment : String)
    (account_mappings : List (String × List (String × String))) : String :=
  "account_number=" ++
    pyJoin ","
      ((specFirstEncounterDirs changed_files).filterMap
        (fun d =>
          (directory_mapping.lookup d).bind (fun t =>
            (account_mappings.lookup environment).bind
              (fun envMap => envMap.lookup t))))

/-- Membership in the fold that builds `extract_directories`. -/
theorem mem_extract_foldl (l : List String) (acc : List String) (d : String) :
    (d ∈ l.foldl
      (fun acc tok =>
        match pySplitSlash tok with
        | p :: _ :: _ => if acc.contains p then acc else acc ++ [p]
        | _ => acc)
      acc) ↔
      d ∈ acc ∨ ∃ tok ∈ l, ∃ rest, pySplitSlash tok = d :: rest ∧ rest ≠ [] := by
  induction l generalizing acc with
  | nil => simp
  | cons t ts ih =>
    simp only [List.foldl_cons, ih, List.mem_cons]
    have step :
        (d ∈ (match pySplitSlash t with
          | p :: _ :: _ => if acc.contains p then acc else acc ++ [p]
          | _ => acc)) ↔
        d ∈ acc ∨ ∃ rest, pySplitSlash t = d :: rest ∧ rest ≠ [] := by
      rcases h : pySplitSlash t with _ | ⟨p, _ | ⟨q, qs⟩⟩
      · simp only [h]
        constructor
        · exact Or.inl
        · rintro (ha | ⟨rest, hsp, hne⟩)
          · exact ha
          · cases hsp
      · simp only [h]
        constructor
        · exact Or.inl
        · rintro (ha | ⟨rest, hsp, hne⟩)
          · exact ha
          · cases hsp
            exact absurd rfl hne
      · simp only [h]
        by_cases hc : acc.contains p
        · rw [if_pos hc]
          constructor
          · exact Or.inl
          · rintro (ha | ⟨rest, hsp, hne⟩)
            · exact ha
            · cases hsp
              exact List.mem_of_elem_eq_true hc
        · rw [if_neg hc]
          simp only [List.mem_append, List.mem_singleton]
          constructor
          · rintro (ha | rfl)
            · exact Or.inl ha
            · exact Or.inr ⟨q :: qs, rfl, by simp⟩
          · rintro (ha | ⟨rest, hsp, hne⟩)
            · exact Or.inl ha
            · cases hsp
              exact Or.inr rfl
    constructor
    · rintro (hd | ⟨tok, htok, rest, hsp, hne⟩)
      · rcases step.mp hd with ha | ⟨rest, hsp, hne⟩
        · exact Or.inl ha
        · exact Or.inr ⟨t, Or.inl rfl, rest, hsp, hne⟩
      · exact Or.inr ⟨tok, Or.inr htok, rest, hsp, hne⟩
    · rintro (ha | ⟨tok, (rfl | htok), rest, hsp, hne⟩)
      · exact Or.inl (step.mpr (Or.inl ha))
      · exact Or.inl (step.mpr (Or.inr ⟨rest, hsp, hne⟩))
      · exact Or.inr ⟨tok, htok, rest, hsp, hne⟩

/-- The fold that builds `extract_directories` preserves duplicate-freeness. -/
theorem nodup_extract_foldl (l : List String) (acc : List String)
    (hacc : acc.Nodup) :
    (l.foldl
      (fun acc tok =>
        match pySplitSlash tok with
        | p :: _ :: _ => if acc.contains p then acc else acc ++ [p]
        | _ => acc)
      acc).Nodup := by
  induction l generalizing acc with
  | nil => exact hacc
  | cons t ts ih =>
    rw [List.foldl_cons]
    apply ih
    rcases h : pySplitSlash t with _ | ⟨p, _ | ⟨q, qs⟩⟩
    · simpa [h] using hacc
    · simpa [h] using hacc
    · simp only [h]
      by_cases hc : acc.contains p
      · rwa [if_pos hc]
      · rw [if_neg hc]
        refine List.Nodup.append hacc (List.nodup_singleton p) ?_
        intro a ha hb
        rw [List.mem_singleton] at hb
        subst hb
        exact hc (List.elem_eq_true_of_mem ha)

/-- `extract_directories` is duplicate-free (it models a Python set). -/
theorem extract_directories_nodup (cf : String) :
    (extract_directories cf).Nodup := by
  unfold extract_directories
  by_cases hcf : cf = ""
  · simp [hcf]
  · rw [if_neg hcf]
    exact nodup_extract_foldl _ _ List.nodup_nil

/-- C7: `extract_directories` splits its input on whitespace, takes for each
token containing a separator the path segment before the first `/`, and
collects the segments into a duplicate-free order-irrelevant set; on
`"src/a.py tests/b.py src/c.py"` the set has exactly the two elements
`"src"` and `"tests"`. -/
theorem C7_extract_directories_set :
    (extract_directories "src/a.py tests/b.py src/c.py").Perm
      ["src", "tests"] ∧
    (∀ s, (extract_directories s).Nodup) ∧
    ∀ s d, d ∈ extract_directories s ↔
      ∃ tok ∈ pySplitWs (pyStrip s), ∃ rest,
        pySplitSlash tok = d :: rest ∧ rest ≠ [] := by
  refine ⟨?_, extract_directories_nodup, ?_⟩
  · have h : extract_directories "src/a.py tests/b.py src/c.py" =
        ["src", "tests"] := by rfl
    rw [h]
  · intro s d
    unfold extract_directories
    by_cases hs : s = ""
    · subst hs
      have h : pySplitWs (pyStrip "") = [] := by rfl
      simp [h]
    · rw [if_neg hs, mem_extract_foldl]
      simp

/-- All-whitespace input gives the empty directory set. -/
theorem extract_directories_of_whitespace (cf : String)
    (h : ∀ c ∈ cf.toList, pyIsSpace c = true) :
    extract_directories cf = [] := by
  unfold extract_directories
  by_cases hcf : cf = ""
  · simp [hcf]
  · rw [if_neg hcf]
    have hdrop : cf.toList.dropWhile pyIsSpace = [] :=
      List.dropWhile_eq_nil_iff.mpr (fun x hx => h x hx)
    have hstrip : pyStripList cf.toList = [] := by
      unfold pyStripList
      rw [hdrop]
      rfl
    have hsplit : pySplitWs (pyStrip cf) = [] := by
      unfold pySplitWs pyStrip
      rw [hstrip]
      rfl
    rw [hsplit]
    rfl

/-- C5: for an empty or whitespace-only `CHANGED_FILES`, the resolver prints
the sentinel lines `account_number=SKIP` and `mapping_found=false` and exits
with code 0, for every environment value and every mappings table. -/
theorem C5_whitespace_input_skips (cf env : String)
    (maps : List (String × List (String × String))) (dirOrder : List String)
    (hws : ∀ c ∈ cf.toList, pyIsSpace c = true)
    (hord : IsIterationOrder dirOrder (extract_directories cf)) :
    map_accounts_main env maps dirOrder =
      { stdout := ["account_number=SKIP", "mapping_found=false"],
        exitCode := 0 } := by
  have hempty : extract_directories cf = [] :=
    extract_directories_of_whitespace cf hws
  have hnil : dirOrder = [] := by
    have hp : dirOrder.Perm [] := hempty ▸ hord
    exact List.perm_nil.mp hp
  subst hnil
  rfl

/-- Closed instance of C5: whitespace-only input `" \t "`, arbitrary
environment, empty mappings table. -/
theorem C5_whitespace_input_skips_witness :
    map_accounts_main "dev" [] [] =
      { stdout := ["account_number=SKIP", "mapping_found=false"],
        exitCode := 0 } :=
  C5_whitespace_input_skips " \t " "dev" [] []
    (by decide)
    (by
      rw [IsIterationOrder, extract_directories_of_whitespace " \t " (by decide)])

/-- `determine_account_types` is the filterMap of the directory lookup. -/
theorem determine_account_types_eq_filterMap (order : List String) :
    determine_account_types order =
      order.filterMap (fun d => directory_mapping.lookup d) := by
  have gen : ∀ (l acc : List String),
      l.foldl
        (fun acc d =>
          match directory_mapping.lookup d with
          | some t => acc ++ [t]
          | Option.none => acc)
        acc = acc ++ l.filterMap (fun d => directory_mapping.lookup d) := by
    intro l
    induction l with
    | nil => intro acc; simp
    | cons d ds ih =>
      intro acc
      rw [List.foldl_cons, List.filterMap_cons]
      rcases h : directory_mapping.lookup d with _ | t
      · simpa [h] using ih acc
      · simp only [h, ih (acc ++ [t])]
        simp
  simpa using gen order []

/-- `collectAccounts` returns one account number per account type. -/
theorem collectAccounts_length (envMap : List (String × String))
    (ts : List String) (ns : List String)
    (h : collectAccounts envMap ts = some ns) : ns.length = ts.length := by
  induction ts generalizing ns with
  | nil =>
    rw [collectAccounts] at h
    cases h
    rfl
  | cons t ts ih =>
    rw [collectAccounts] at h
    rcases hl : envMap.lookup t with _ | n
    · rw [hl] at h; cases h
    · rw [hl] at h
      rcases hc : collectAccounts envMap ts with _ | ns0
      · rw [hc] at h; cases h
      · rw [hc] at h
        cases h
        simp [ih ns0 hc]

/-- Length of `filterMap` counted by `isSome`. -/
theorem length_filterMap_eq_length_filter {α β : Type} (f : α → Option β)
    (l : List α) :
    (l.filterMap f).length = (l.filter (fun a => (f a).isSome)).length := by
  induction l with
  | nil => rfl
  | cons a l ih =>
    rw [List.filterMap_cons, List.filter_cons]
    rcases h : f a with _ | b
    · simpa [h] using ih
    · simpa [h] using ih

/-- C1, amended: whenever at least one recognised directory appears and the
environment resolves every recognised category, the resolver prints
`account_number=` followed by the comma-join of one account number per
distinct recognised directory — in the (unspecified) iteration order of the
Python set of directories, not necessarily in first-encountered order — with
`mapping_found=true` and exit code 0; the number of joined accounts equals the
number of distinct recognised directories in the input. -/
theorem C1_account_join (cf env : String)
    (maps : List (String × List (String × String)))
    (order : List String) (envMap : List (String × String))
    (nums : List String)
    (hord : IsIterationOrder order (extract_directories cf))
    (henv : maps.lookup env = some envMap)
    (hnums : collectAccounts envMap (determine_account_types order) = some nums)
    (hne : determine_account_types order ≠ []) :
    map_accounts_main env maps order =
      { stdout := ["account_number=" ++ pyJoin "," nums, "mapping_found=true"],
        exitCode := 0 } ∧
    nums.length = ((extract_directories cf).filter
      (fun d => (directory_mapping.lookup d).isSome)).length := by
  constructor
  · unfold map_accounts_main
    rw [if_neg hne, henv]
    simp only [hnums]
  · have h1 : nums.length = (determine_account_types order).length :=
      collectAccounts_length envMap _ nums hnums
    rw [h1, determine_account_types_eq_filterMap,
      length_filterMap_eq_length_filter]
    exact (List.Perm.filter _ hord).length_eq

/-- Closed instance of C1 (amended): input `"tests/a.py src/b.py"` with the
set iterated in insertion order, environment `dev`. -/
theorem C1_account_join_witness :
    (map_accounts_main "dev" [("dev", [("src", "123"), ("tests", "987")])]
        ["tests", "src"] =
      { stdout := ["account_number=987,123", "mapping_found=true"],
        exitCode := 0 } ∧
      (2 : Nat) = ((extract_directories "tests/a.py src/b.py").filter
        (fun d => (directory_mapping.lookup d).isSome)).length) :=
  C1_account_join "tests/a.py src/b.py" "dev"
    [("dev", [("src", "123"), ("tests", "987")])]
    ["tests", "src"] [("src", "123"), ("tests", "987")] ["987", "123"]
    (by
      show List.Perm _ _
      have h : extract_directories "tests/a.py src/b.py" = ["tests", "src"] :=
        rfl
      rw [h])
    rfl rfl (by decide)

/-- C1 as stated is false: for the input `"tests/a.py src/b.py"` the set of
directories is `{tests, src}`, and `["src", "tests"]` is one of its possible
iteration orders; under that order the resolver prints
`account_number=123,987`, while the first-encountered order required by the
claim would give `account_number=987,123`. -/
theorem C1_counterexample :
    IsIterationOrder ["src", "tests"]
      (extract_directories "tests/a.py src/b.py") ∧
    (map_accounts_main "dev" [("dev", [("src", "123"), ("tests", "987")])]
        ["src", "tests"]).stdout =
      ["account_number=123,987", "mapping_found=true"] ∧
    specC1Line "tests/a.py src/b.py" "dev"
        [("dev", [("src", "123"), ("tests", "987")])] =
      "account_number=987,123" ∧
    ("account_number=123,987" : String) ≠ "account_number=987,123" := by
  refine ⟨?_, rfl, rfl, by decide⟩
  show List.Perm _ _
  have h : extract_directories "tests/a.py src/b.py" = ["tests", "src"] := rfl
  rw [h]
  exact List.Perm.swap _ _ _

/-!
Part 2 models the JSON→PDF report generator
(.github/actions/generate-report): src/pdf_generator/utils.py,
src/pdf_generator/table_factory.py, src/pdf_generator/run.py and the entry
point scripts/generate_report.py.  A parsed JSON value (Python object) is the
inductive `PyVal`; a Python dict preserves insertion order, so it is an
association list.  ReportLab is an external collaborator: the drawable
elements handed to it (paragraphs, spacers, tables with their column widths
and span commands) are modelled as the inductive `Block`, and `doc.build` as
the act of writing the output file.  Geometry values (points) are exact
rationals; the source's float constants 6.0*inch, 1.2*inch, 0.08 and 0.3*inch
are the rationals 432, 432/5, 2/25 and 108/5.
-/

/-- A Python value as produced by `json.loads`: strings, ints, floats
(carrying their source literal; no claim exercises float arithmetic or float
rendering), booleans, `None`, lists, and insertion-ordered dicts. -/
inductive PyVal where
  | str (s : String)
  | int (n : Int)
  | float (lit : String)
  | bool (b : Bool)
  | none
  | list (xs : List PyVal)
  | dict (entries : List (String × PyVal))

/-- Replace every occurrence of the character `pat` by the string `rep`
(Python `str.replace` with a one-character pattern). -/
def pyReplaceChar (pat : Char) (rep : List Char) : List Char → List Char
  | [] => []
  | c :: cs => (if c = pat then rep else [c]) ++ pyReplaceChar pat rep cs

/-- Python `str.lower()` (ASCII). -/
def pyLower (s : String) : String :=
  String.mk (s.toList.map Char.toLower)

/-- Substring test on character lists. -/
def listContainsSub (needle : List Char) : List Char → Bool
  | [] => needle.isEmpty
  | c :: cs => needle.isPrefixOf (c :: cs) || listContainsSub needle cs

/-- Python `sub in hay` for strings. -/
def pyContains (hay sub : String) : Bool :=
  listContainsSub sub.toList hay.toList

/-- Python `str.title()` (ASCII): the first letter of every maximal run of
letters is uppercased, the rest lowercased; `prevCased` says whether the
previous character was a letter. -/
def pyTitleList (prevCased : Bool) : List Char → List Char
  | [] => []
  | c :: cs =>
    if c.isAlpha then
      (if prevCased then c.toLower else c.toUpper) :: pyTitleList true cs
    else
      c :: pyTitleList false cs

/-- `capitalize_header_text` from pdf_generator/utils.py:
`text.replace("_", " ").title()`. -/
def capitalize_header_text (s : String) : String :=
  String.mk (pyTitleList false (pyReplaceChar '_' [' '] s.toList))

/-- Escape one character the way Python `repr` escapes it inside a
single-quoted string literal (approximate: quote-style switching for strings
that contain a single quote is not modelled; no claim renders such values). -/
def pyReprEscapeChar (c : Char) : List Char :=
  if c = '\\' then ['\\', '\\']
  else if c = '\x27' then ['\\', '\x27']
  else if c = '\n' then ['\\', 'n']
  else if c = '\t' then ['\\', 't']
  else if c = '\r' then ['\\', 'r']
  else [c]

/-- Python `repr` escaping of a string body. -/
def pyReprEscape (s : String) : String :=
  String.mk (s.toList.foldr (fun c acc => pyReprEscapeChar c ++ acc) [])

mutual
/-- Python `repr` of a value (used by `str` on containers).  Ints, bools,
`None` and strings follow CPython; floats carry their literal. -/
def pyRepr : PyVal → String
  | .str s => "'" ++ pyReprEscape s ++ "'"
  | .int n => toString n
  | .float lit => lit
  | .bool b => if b then "True" else "False"
  | .none => "None"
  | .list xs => "[" ++ pyJoin ", " (pyReprList xs) ++ "]"
  | .dict es => "\x7b" ++ pyJoin ", " (pyReprEntries es) ++ "\x7d"

/-- `repr` of each element of a list. -/
def pyReprList : List PyVal → List String
  | [] => []
  | x :: xs => pyRepr x :: pyReprList xs

/-- `repr` of each `key: value` entry of a dict. -/
def pyReprEntries : List (String × PyVal) → List String
  | [] => []
  | (k, v) :: es =>
    ("'" ++ pyReprEscape k ++ "': " ++ pyRepr v) :: pyReprEntries es
end

/-- Python `str(value)`: the string itself for strings, `repr` otherwise. -/
def pyStr : PyVal → String
  | .str s => s
  | v => pyRepr v

/-- Lowercase hexadecimal digit. -/
def hexDigit (n : Nat) : Char :=
  if n < 10 then Char.ofNat (48 + n) else Char.ofNat (87 + (n % 6))

/-- Four lowercase hex digits of a code point below 0x10000 (code points
above 0xFFFF would need a surrogate pair in CPython's `ensure_ascii` output;
approximated as a single escape, exercised by no claim). -/
def hex4 (n : Nat) : List Char :=
  [hexDigit (n / 4096 % 16), hexDigit (n / 256 % 16),
   hexDigit (n / 16 % 16), hexDigit (n % 16)]

/-- `json.dumps` escaping of one character (default `ensure_ascii=True`). -/
def jsonEscapeChar (c : Char) : List Char :=
  if c = '"' then ['\\', '"']
  else if c = '\\' then ['\\', '\\']
  else if c = '\n' then ['\\', 'n']
  else if c = '\t' then ['\\', 't']
  else if c = '\r' then ['\\', 'r']
  else if c = '\x08' then ['\\', 'b']
  else if c = '\x0c' then ['\\', 'f']
  else if c.toNat < 32 || c.toNat > 126 then '\\' :: 'u' :: hex4 c.toNat
  else [c]

/-- `json.dumps` escaping of a string body. -/
def jsonEscape (s : String) : String :=
  String.mk (s.toList.foldr (fun c acc => jsonEscapeChar c ++ acc) [])

/-- `indent` spaces for nesting level `lvl` with `indent=2`. -/
def jsonIndent (lvl : Nat) : String :=
  String.mk (List.replicate (2 * lvl) ' ')

mutual
/-- `json.dumps(value, indent=2)` at nesting level `lvl`. -/
def jsonDumpsAt (lvl : Nat) : PyVal → String
  | .str s => "\"" ++ jsonEscape s ++ "\""
  | .int n => toString n
  | .float lit => lit
  | .bool b => if b then "true" else "false"
  | .none => "null"
  | .list [] => "[]"
  | .list (x :: xs) =>
    "[\n" ++ pyJoin ",\n" (jsonDumpsItems (lvl + 1) (x :: xs)) ++ "\n" ++
      jsonIndent lvl ++ "]"
  | .dict [] => "\x7b\x7d"
  | .dict (e :: es) =>
    "\x7b\n" ++ pyJoin ",\n" (jsonDumpsEntries (lvl + 1) (e :: es)) ++ "\n" ++
      jsonIndent lvl ++ "\x7d"

/-- The indented items of a dumped list. -/
def jsonDumpsItems (lvl : Nat) : List PyVal → List String
  | [] => []
  | x :: xs => (jsonIndent lvl ++ jsonDumpsAt lvl x) :: jsonDumpsItems lvl xs

/-- The indented `"key": value` entries of a dumped dict. -/
def jsonDumpsEntries (lvl : Nat) : List (String × PyVal) → List String
  | [] => []
  | (k, v) :: es =>
    (jsonIndent lvl ++ "\"" ++ jsonEscape k ++ "\": " ++ jsonDumpsAt lvl v) ::
      jsonDumpsEntries lvl es
end

/-- `json.dumps(value, indent=2)`. -/
def jsonDumps2 (v : PyVal) : String :=
  jsonDumpsAt 0 v

/-- Proleptic-Gregorian leap year. -/
def isLeapYear (y : Int) : Bool :=
  (Int.emod y 4 = 0 && Int.emod y 100 ≠ 0) || Int.emod y 400 = 0

/-- Days in a month. -/
def daysInMonth (y m : Int) : Int :=
  if m = 2 then (if isLeapYear y then 29 else 28)
  else if m = 4 || m = 6 || m = 9 || m = 11 then 30
  else 31

/-- Days since 1970-01-01 of a proleptic-Gregorian civil date
(the standard closed-form "days from civil" computation). -/
def daysFromCivil (y m d : Int) : Int :=
  let y2 : Int := if m ≤ 2 then y - 1 else y
  let era : Int := Int.fdiv y2 400
  let yoe : Int := y2 - era * 400
  let mp : Int := if m > 2 then m - 3 else m + 9
  let doy : Int := (153 * mp + 2) / 5 + d - 1
  let doe : Int := yoe * 365 + yoe / 4 - yoe / 100 + doy
  era * 146097 + doe - 719468

/-- Civil date from days since 1970-01-01 (inverse of `daysFromCivil`). -/
def civilFromDays (z0 : Int) : Int × Int × Int :=
  let z : Int := z0 + 719468
  let era : Int := Int.fdiv z 146097
  let doe : Int := z - era * 146097
  let yoe : Int := (doe - doe / 1460 + doe / 36524 - doe / 146096) / 365
  let y : Int := yoe + era * 400
  let doy : Int := doe - (365 * yoe + yoe / 4 - yoe / 100)
  let mp : Int := (5 * doy + 2) / 153
  let d : Int := doy - (153 * mp + 2) / 5 + 1
  let m : Int := if mp < 10 then mp + 3 else mp - 9
  (if m ≤ 2 then y + 1 else y, m, d)

/-- Day of week of a day number (0 = Sunday; day 0 = 1970-01-01 was a
Thursday). -/
def weekdayOfDays (z : Int) : Int :=
  Int.emod (z + 4) 7

/-- A parsed Python `datetime`: date, time and optional fixed UTC offset in
minutes (`Option.none` for a naive datetime). -/
structure PyDateTime where
  year : Int
  month : Int
  day : Int
  hour : Int
  minute : Int
  second : Int
  tzOffsetMinutes : Option Int
deriving DecidableEq, Repr

/-- Value of a decimal digit character. -/
def digitVal (c : Char) : Option Nat :=
  if c.toNat ≥ 48 && c.toNat ≤ 57 then some (c.toNat - 48) else Option.none

/-- Read exactly `n` decimal digits. -/
def readDigits : Nat → List Char → Option (Nat × List Char)
  | 0, cs => some (0, cs)
  | _ + 1, [] => Option.none
  | n + 1, c :: cs =>
    match digitVal c with
    | Option.none => Option.none
    | some d =>
      (readDigits n cs).bind (fun p =>
        some (d * 10 ^ n + p.1, p.2))

/-- Model of `datetime.fromisoformat`, restricted to the grammar
`YYYY-MM-DD[{T| }HH:MM[:SS[.digits]][±HH:MM]]` actually exercised by the
report pipeline (CPython accepts further ISO-8601 shapes; they do not occur
here).  Range checks mirror CPython: year 1–9999, month 1–12, day within the
month, hour ≤ 23, minute/second ≤ 59, offset hour ≤ 23, offset minute ≤ 59. -/
def parseIsoDateTime (s : String) : Option PyDateTime :=
  match readDigits 4 s.toList with
  | Option.none => Option.none
  | some (y, cs1) =>
    match cs1 with
    | '-' :: cs2 =>
      match readDigits 2 cs2 with
      | Option.none => Option.none
      | some (mo, cs3) =>
        match cs3 with
        | '-' :: cs4 =>
          match readDigits 2 cs4 with
          | Option.none => Option.none
          | some (d, cs5) =>
            let dateOk : Bool :=
              1 ≤ y && y ≤ 9999 && 1 ≤ mo && mo ≤ 12 && 1 ≤ d &&
                (d : Int) ≤ daysInMonth (y : Int) (mo : Int)
            if !dateOk then Option.none
            else
              match cs5 with
              | [] =>
                some ⟨y, mo, d, 0, 0, 0, Option.none⟩
              | sep :: cs6 =>
                if sep ≠ 'T' && sep ≠ ' ' then Option.none
                else
                  match readDigits 2 cs6 with
                  | Option.none => Option.none
                  | some (h, cs7) =>
                    match cs7 with
                    | ':' :: cs8 =>
                      match readDigits 2 cs8 with
                      | Option.none => Option.none
                      | some (mi, cs9) =>
                        let secPart :
                            Option (Nat × List Char) :=
                          match cs9 with
                          | ':' :: cs10 =>
                            match readDigits 2 cs10 with
                            | Option.none => Option.none
                            | some (se, cs11) =>
                              match cs11 with
                              | '.' :: cs12 =>
                                let frac := cs12.takeWhile
                                  (fun c => (digitVal c).isSome)
                                if frac.length = 0 then Option.none
                                else some (se, cs12.drop frac.length)
                              | _ => some (se, cs11)
                          | _ => some (0, cs9)
                        match secPart with
                        | Option.none => Option.none
                        | some (se, cs13) =>
                          let timeOk : Bool := h ≤ 23 && mi ≤ 59 && se ≤ 59
                          if !timeOk then Option.none
                          else
                            match cs13 with
                            | [] => some ⟨y, mo, d, h, mi, se, Option.none⟩
                            | sign :: cs14 =>
                              if sign ≠ '+' && sign ≠ '-' then Option.none
                              else
                                match readDigits 2 cs14 with
                                | Option.none => Option.none
                                | some (oh, cs15) =>
                                  match cs15 with
                                  | ':' :: cs16 =>
                                    match readDigits 2 cs16 with
                                    | Option.none => Option.none
                                    | some (om, cs17) =>
                                      if cs17 ≠ [] || oh > 23 || om > 59 then
                                        Option.none
                                      else
                                        let off : Int :=
                                          (oh : Int) * 60 + (om : Int)
                                        some ⟨y, mo, d, h, mi, se,
                                          some (if sign = '-' then -off
                                            else off)⟩
                                  | _ => Option.none
                    | _ => Option.none
        | _ => Option.none
    | _ => Option.none

/-- The US/Eastern UTC offset (minutes) and timezone abbreviation at a UTC
instant given in minutes since the epoch, per the post-2007 United States
daylight-saving rule (DST from the second Sunday of March 02:00 EST, i.e.
07:00 UTC, to the first Sunday of November 02:00 EDT, i.e. 06:00 UTC).
This models the tz database entry used by `zoneinfo.ZoneInfo("US/Eastern")`
for the years the pipeline handles. -/
def usEasternOffset (utcMinutes : Int) : Int × String :=
  let y := (civilFromDays (Int.fdiv utcMinutes 1440)).1
  let mar1 := daysFromCivil y 3 1
  let secondSunMar := mar1 + Int.emod (7 - weekdayOfDays mar1) 7 + 7
  let nov1 := daysFromCivil y 11 1
  let firstSunNov := nov1 + Int.emod (7 - weekdayOfDays nov1) 7
  let dstStart := secondSunMar * 1440 + 7 * 60
  let dstEnd := firstSunNov * 1440 + 6 * 60
  if dstStart ≤ utcMinutes && utcMinutes < dstEnd then (-240, "EDT")
  else (-300, "EST")

/-- English month abbreviations used by `strftime("%b")`. -/
def monthAbbrev (m : Int) : String :=
  if m = 1 then "Jan" else if m = 2 then "Feb" else if m = 3 then "Mar"
  else if m = 4 then "Apr" else if m = 5 then "May" else if m = 6 then "Jun"
  else if m = 7 then "Jul" else if m = 8 then "Aug" else if m = 9 then "Sep"
  else if m = 10 then "Oct" else if m = 11 then "Nov" else "Dec"

/-- Zero-padded two-digit decimal rendering (`%d`, `%I`, `%M`). -/
def pad2 (n : Int) : String :=
  if n < 10 then "0" ++ toString n else toString n

/-- `format_timestamp` from pdf_generator/utils.py: replace `Z` by `+00:00`,
parse as ISO-8601, convert to US/Eastern and render as
`"%b %d, %Y at %I:%M %p %Z"`; an empty input yields `""`, and any parse
failure returns the input unchanged.  A naive timestamp is converted from the
host clock's zone by CPython; the model takes that zone to be UTC (the
GitHub-runner configuration). -/
def format_timestamp (timestamp_str : String) : String :=
  if timestamp_str = "" then ""
  else
    match parseIsoDateTime
        (String.mk (pyReplaceChar 'Z' ("+00:00".toList) timestamp_str.toList))
      with
    | Option.none => timestamp_str
    | some dt =>
      let naiveMin : Int :=
        daysFromCivil dt.year dt.month dt.day * 1440 + dt.hour * 60 + dt.minute
      let utcMin : Int :=
        match dt.tzOffsetMinutes with
        | some off => naiveMin - off
        | Option.none => naiveMin
      let offName := usEasternOffset utcMin
      let loc := utcMin + offName.1
      let ymd := civilFromDays (Int.fdiv loc 1440)
      let tod := Int.emod loc 1440
      let h := tod / 60
      let mi := Int.emod tod 60
      let h12 : Int := if Int.emod h 12 = 0 then 12 else Int.emod h 12
      let ampm : String := if h < 12 then "AM" else "PM"
      monthAbbrev ymd.2.1 ++ " " ++ pad2 ymd.2.2 ++ ", " ++ toString ymd.1 ++
        " at " ++ pad2 h12 ++ ":" ++ pad2 mi ++ " " ++ ampm ++ " " ++
        offName.2

/-- The keyword list of `format_value`. -/
def timestampKeywords : List String := ["time", "date", "timestamp"]

/-- The test `any(keyword in value.lower() for keyword in [...])` of
`format_value`: note it inspects the VALUE string itself. -/
def valueLooksTimestamp (v : String) : Bool :=
  timestampKeywords.any (fun kw => pyContains (pyLower v) kw)

/-- `format_value` from pdf_generator/utils.py: a string is timestamp-
formatted when the string itself contains one of the keywords; dicts and
lists are dumped as indented JSON; everything else is `str(value)`. -/
def format_value (v : PyVal) : String :=
  match v with
  | .str s => if valueLooksTimestamp s then format_timestamp s else s
  | .dict _ => jsonDumps2 v
  | .list _ => jsonDumps2 v
  | other => pyStr other

/-- JSON whitespace (RFC 8259 / CPython json). -/
def jsonWsChar (c : Char) : Bool :=
  c = ' ' || c = '\t' || c = '\n' || c = '\r'

/-- Skip JSON whitespace. -/
def jsonSkipWs (cs : List Char) : List Char :=
  cs.dropWhile jsonWsChar

/-- Decimal digit test. -/
def charIsDigit (c : Char) : Bool :=
  (digitVal c).isSome

/-- Value of a hexadecimal digit character. -/
def hexVal (c : Char) : Option Nat :=
  if c.toNat ≥ 48 && c.toNat ≤ 57 then some (c.toNat - 48)
  else if c.toNat ≥ 97 && c.toNat ≤ 102 then some (c.toNat - 87)
  else if c.toNat ≥ 65 && c.toNat ≤ 70 then some (c.toNat - 55)
  else Option.none

/-- Decode a JSON short escape character. -/
def jsonEscDecode (e : Char) : Option Char :=
  if e = '"' then some '"'
  else if e = '\\' then some '\\'
  else if e = '/' then some '/'
  else if e = 'b' then some '\x08'
  else if e = 'f' then some '\x0c'
  else if e = 'n' then some '\n'
  else if e = 'r' then some '\r'
  else if e = 't' then some '\t'
  else Option.none

/-- Parse the body of a JSON string after the opening quote, producing the
decoded characters and the rest of the input.  Raw control characters are
rejected, as in CPython's strict mode.  A `\uXXXX` escape becomes the single
code point `XXXX` (CPython combines surrogate pairs and tolerates lone
surrogates; the report payloads contain neither). -/
def parseJsonStrBody : List Char → Option (List Char × List Char)
  | [] => Option.none
  | c :: cs =>
    if c = '"' then some ([], cs)
    else if c = '\\' then
      match cs with
      | [] => Option.none
      | e :: cs2 =>
        if e = 'u' then
          match cs2 with
          | a :: b :: c3 :: d :: cs3 =>
            match hexVal a, hexVal b, hexVal c3, hexVal d with
            | some ha, some hb, some hc, some hd =>
              match parseJsonStrBody cs3 with
              | some (s, r) =>
                some (Char.ofNat (ha * 4096 + hb * 256 + hc * 16 + hd) :: s, r)
              | Option.none => Option.none
            | _, _, _, _ => Option.none
          | _ => Option.none
        else
          match jsonEscDecode e with
          | Option.none => Option.none
          | some ec =>
            match parseJsonStrBody cs2 with
            | some (s, r) => some (ec :: s, r)
            | Option.none => Option.none
    else if c.toNat < 32 then Option.none
    else
      match parseJsonStrBody cs with
      | some (s, r) => some (c :: s, r)
      | Option.none => Option.none

/-- Digits to a number. -/
def natOfDigits (l : List Char) : Int :=
  l.foldl (fun a c => a * 10 + ((c.toNat : Int) - 48)) 0

/-- Parse a JSON number (RFC 8259 grammar: optional minus, integer part
without leading zeros, optional fraction, optional exponent).  A number
without fraction and exponent is a Python int; otherwise a float carrying its
literal. -/
def parseJsonNumber (cs : List Char) : Option (PyVal × List Char) :=
  let sign :=
    match cs with
    | '-' :: r => (['-'], r)
    | _ => (([] : List Char), cs)
  let intD := sign.2.takeWhile charIsDigit
  let cs2 := sign.2.drop intD.length
  if intD.length = 0 then Option.none
  else if intD.length > 1 && intD.head? = some '0' then Option.none
  else
    let fracRes : Option (List Char × List Char) :=
      match cs2 with
      | '.' :: r =>
        let fd := r.takeWhile charIsDigit
        if fd.length = 0 then Option.none
        else some ('.' :: fd, r.drop fd.length)
      | _ => some ([], cs2)
    match fracRes with
    | Option.none => Option.none
    | some (fracChars, cs3) =>
      let expRes : Option (List Char × List Char) :=
        match cs3 with
        | e :: r =>
          if e = 'e' || e = 'E' then
            let es :=
              match r with
              | '+' :: r2 => ((['+'] : List Char), r2)
              | '-' :: r2 => ((['-'] : List Char), r2)
              | _ => (([] : List Char), r)
            let ed := es.2.takeWhile charIsDigit
            if ed.length = 0 then Option.none
            else some (e :: (es.1 ++ ed), es.2.drop ed.length)
          else some ([], cs3)
        | [] => some ([], cs3)
      match expRes with
      | Option.none => Option.none
      | some (expChars, cs4) =>
        if fracChars = [] && expChars = [] then
          let n := natOfDigits intD
          some (.int (if sign.1 = [] then n else -n), cs4)
        else
          some (.float (String.mk (sign.1 ++ intD ++ fracChars ++ expChars)),
            cs4)

/-- Set a key in an insertion-ordered dict: a present key keeps its position
and takes the new value; a new key is appended (CPython dict semantics). -/
def pyDictSet (es : List (String × PyVal)) (k : String) (v : PyVal) :
    List (String × PyVal) :=
  if (es.map Prod.fst).contains k then
    es.map (fun e => if e.1 = k then (k, v) else e)
  else es ++ [(k, v)]

/-- Build a dict from entries in parse order (later duplicate keys win). -/
def pyDictBuild (raw : List (String × PyVal)) : List (String × PyVal) :=
  raw.foldl (fun d e => pyDictSet d e.1 e.2) []

mutual
/-- Parse one JSON value (fuel-indexed recursive descent mirroring
`json.loads`; `NaN`/`Infinity`/`-Infinity` are accepted as CPython does,
as floats whose numeric value no claim touches). -/
def parseJsonVal : Nat → List Char → Option (PyVal × List Char)
  | 0, _ => Option.none
  | fuel + 1, cs0 =>
    match jsonSkipWs cs0 with
    | 'n' :: 'u' :: 'l' :: 'l' :: r => some (.none, r)
    | 't' :: 'r' :: 'u' :: 'e' :: r => some (.bool true, r)
    | 'f' :: 'a' :: 'l' :: 's' :: 'e' :: r => some (.bool false, r)
    | 'N' :: 'a' :: 'N' :: r => some (.float "nan", r)
    | 'I' :: 'n' :: 'f' :: 'i' :: 'n' :: 'i' :: 't' :: 'y' :: r =>
      some (.float "inf", r)
    | '-' :: 'I' :: 'n' :: 'f' :: 'i' :: 'n' :: 'i' :: 't' :: 'y' :: r =>
      some (.float "-inf", r)
    | '"' :: r =>
      match parseJsonStrBody r with
      | some (s, rest) => some (.str (String.mk s), rest)
      | Option.none => Option.none
    | '[' :: r => parseJsonArr fuel (jsonSkipWs r)
    | '{' :: r => parseJsonObj fuel (jsonSkipWs r)
    | other => parseJsonNumber other

/-- Parse an array after `[` (whitespace already skipped). -/
def parseJsonArr : Nat → List Char → Option (PyVal × List Char)
  | 0, _ => Option.none
  | fuel + 1, cs =>
    match cs with
    | ']' :: r => some (.list [], r)
    | _ =>
      match parseJsonItems fuel cs with
      | some (xs, r) => some (.list xs, r)
      | Option.none => Option.none

/-- Parse the comma-separated items of a non-empty array. -/
def parseJsonItems : Nat → List Char → Option (List PyVal × List Char)
  | 0, _ => Option.none
  | fuel + 1, cs =>
    match parseJsonVal fuel cs with
    | Option.none => Option.none
    | some (v, r) =>
      match jsonSkipWs r with
      | ',' :: r2 =>
        match parseJsonItems fuel r2 with
        | some (xs, r3) => some (v :: xs, r3)
        | Option.none => Option.none
      | ']' :: r2 => some ([v], r2)
      | _ => Option.none

/-- Parse an object after `{` (whitespace already skipped). -/
def parseJsonObj : Nat → List Char → Option (PyVal × List Char)
  | 0, _ => Option.none
  | fuel + 1, cs =>
    match cs with
    | '}' :: r => some (.dict [], r)
    | _ =>
      match parseJsonEntries fuel cs with
      | some (raw, r) => some (.dict (pyDictBuild raw), r)
      | Option.none => Option.none

/-- Parse the comma-separated `"key": value` entries of a non-empty object. -/
def parseJsonEntries : Nat → List Char → Option (List (String × PyVal) × List Char)
  | 0, _ => Option.none
  | fuel + 1, cs =>
    match cs with
    | '"' :: r =>
      match parseJsonStrBody r with
      | Option.none => Option.none
      | some (kcs, r1) =>
        match jsonSkipWs r1 with
        | ':' :: r2 =>
          match parseJsonVal fuel r2 with
          | Option.none => Option.none
          | some (v, r3) =>
            match jsonSkipWs r3 with
            | ',' :: r4 =>
              match parseJsonEntries fuel (jsonSkipWs r4) with
              | some (es, r5) => some ((String.mk kcs, v) :: es, r5)
              | Option.none => Option.none
            | '}' :: r4 => some ([(String.mk kcs, v)], r4)
            | _ => Option.none
        | _ => Option.none
    | _ => Option.none
end

/-- Model of Python `json.loads`: parse one value, then require only
whitespace to remain. -/
def json_loads (s : String) : Option PyVal :=
  match parseJsonVal (4 * s.toList.length + 8) s.toList with
  | some (v, rest) => if jsonSkipWs rest = [] then some v else Option.none
  | Option.none => Option.none

/-- `DOC_CONFIG["total_width"]` = 6.0 * inch = 432 points. -/
def total_width : ℚ := 432

/-- `DOC_CONFIG["min_header_width"]` = 1.2 * inch = 86.4 points. -/
def min_header_width : ℚ := 432 / 5

/-- `DOC_CONFIG["header_char_width"]` = 0.08. -/
def header_char_width : ℚ := 2 / 25

/-- `DOC_CONFIG["header_padding"]` = 0.3 * inch = 21.6 points. -/
def header_padding : ℚ := 108 / 5

/-- The paragraph styles used by the generator. -/
inductive StyleTag where
  | title
  | heading
  | normal
  | footer
deriving DecidableEq, Repr

/-- A drawable element appended to the ReportLab story.  The distinct table
constructors stand for the distinct table classes of table_factory.py, which
attach different `TableStyle`s (`dictTable`: DictTable; `mergedTable`:
MergedTable with its SPAN commands; `tradTable`: TraditionalTable;
`listTable`: ListTable).  `titlePara` carries the raw title value exactly as
the source passes it to `Paragraph`. -/
inductive Block where
  | titlePara (v : PyVal)
  | para (tag : StyleTag) (text : String)
  | spacer (w h : ℚ)
  | titleDivider
  | footerDivider
  | dictTable (rows : List (String × String)) (headerWidth valueWidth : ℚ)
  | mergedTable (rows : List (String × String)) (headerWidth valueWidth : ℚ)
      (spans : List (Nat × Nat))
  | tradTable (headerRow : List String) (rows : List (List String))
      (colWidth : ℚ)
  | listTable (rows : List (String × String)) (headerWidth valueWidth : ℚ)
  | valueBox (text : String)

/-- The longest rendered label length of a dict's keys
(`max(len(capitalize_header_text(k)) for k in data.keys())`; callers only
reach this with non-empty data, where the fold with default 0 agrees with
Python's `max`). -/
def maxKeyLen (data : List (String × PyVal)) : Nat :=
  (data.map (fun kv => (capitalize_header_text kv.1).length)).foldl max 0

/-- `BaseTable._calculate_column_widths` for dict data: the header column is
`max(min_header_width, max_key_length * header_char_width + header_padding)`
and the value column is the remaining total width.  (The config's
`max_header_width` is never applied by the source.) -/
def calcColumnWidths (data : List (String × PyVal)) : ℚ × ℚ :=
  let hw : ℚ :=
    max min_header_width
      ((maxKeyLen data : ℚ) * header_char_width + header_padding)
  (hw, total_width - hw)

/-- `DictTable.create`: `None` for empty data, otherwise one (label, value)
row per key in insertion order, labels via `capitalize_header_text`, values
via `format_value`, with the computed column widths. -/
def dictTableCreate (data : List (String × PyVal)) : Option Block :=
  if data.isEmpty then Option.none
  else
    let rows := data.map
      (fun kv => (capitalize_header_text kv.1, format_value kv.2))
    let w := calcColumnWidths data
    some (.dictTable rows w.1 w.2)

/-- Python `dict.get(k, default)`. -/
def pyDictGet (es : List (String × PyVal)) (k : String) (default : PyVal) :
    PyVal :=
  (es.lookup k).getD default

/-- `value.strip()` on a Python value: only strings have `.strip`; anything
else raises `AttributeError` (modelled as `Except.error`), which
`MergedTable.create` does not catch. -/
def pyStripOf (v : PyVal) : Except String String :=
  match v with
  | .str s => .ok (pyStrip s)
  | _ => .error "AttributeError: strip"

/-- Flatten a parsed `found_lines` dict into `"pattern: line"` strings
(the inner loops of `MergedTable.create`). -/
def flattenPairs : List (String × PyVal) → Except String (List PyVal)
  | [] => .ok []
  | (pattern, lines) :: rest =>
    let cur : Except String (List PyVal) :=
      match lines with
      | .list ls =>
        ls.mapM (fun line =>
          (pyStripOf line).map (fun t => PyVal.str (pattern ++ ": " ++ t)))
      | other =>
        (pyStripOf other).map (fun t => [PyVal.str (pattern ++ ": " ++ t)])
    match cur with
    | .error e => .error e
    | .ok c =>
      match flattenPairs rest with
      | .error e => .error e
      | .ok r => .ok (c ++ r)

/-- The `found_lines` special case of `MergedTable.create`: a string value is
parsed as JSON and, when it parses to a dict, flattened; a parse failure or a
non-dict parse falls back to the single-element list holding the raw value; a
dict value is flattened directly; anything else becomes a single-element
list. -/
def flattenFoundLines (values : PyVal) : Except String (List PyVal) :=
  match values with
  | .str s =>
    match json_loads s with
    | some (.dict parsed) => flattenPairs parsed
    | some _ => .ok [.str s]
    | Option.none => .ok [.str s]
  | .dict parsed => flattenPairs parsed
  | other => .ok [other]

/-- The row/merge-range construction loop of `MergedTable.create`:
returns the rows (same key paragraph repeated per value row) and the merge
ranges in key order; keys whose value list is empty contribute nothing. -/
def mergedRowsAux : List (String × PyVal) → Nat →
    Except String (List (String × String) × List (Nat × Nat))
  | [], _ => .ok ([], [])
  | (key, values) :: rest, currentRow =>
    let keyText := capitalize_header_text key
    let vlE : Except String (List PyVal) :=
      if key = "found_lines" then flattenFoundLines values
      else
        match values with
        | .list ls => .ok ls
        | other => .ok [other]
    match vlE with
    | .error e => .error e
    | .ok vl =>
      if vl.isEmpty then mergedRowsAux rest currentRow
      else
        match mergedRowsAux rest (currentRow + vl.length) with
        | .error e => .error e
        | .ok (rows, ranges) =>
          .ok ((vl.map (fun v => (keyText, pyStr v))) ++ rows,
            (currentRow, currentRow + vl.length - 1) :: ranges)

/-- `MergedTable.create`: `None` for empty data or no rows; otherwise the
rows, the dict-style column widths, and the SPAN commands (one per merge
range spanning more than one row). -/
def mergedTableCreate (data : List (String × PyVal)) :
    Except String (Option Block) :=
  if data.isEmpty then .ok Option.none
  else
    match mergedRowsAux data 0 with
    | .error e => .error e
    | .ok (rows, ranges) =>
      if rows.isEmpty then .ok Option.none
      else
        let w := calcColumnWidths data
        .ok (some (.mergedTable rows w.1 w.2
          (ranges.filter (fun r => r.1 != r.2))))

/-- Insertion sort (Python `sorted` on strings, code-point order). -/
def insertSorted (x : String) : List String → List String
  | [] => [x]
  | y :: ys => if x ≤ y then x :: y :: ys else y :: insertSorted x ys

/-- Python `sorted` for string lists. -/
def sortStrings (l : List String) : List String :=
  l.foldr insertSorted []

/-- `PDFGenerator._is_traditional_table_candidate`: a non-empty list of dicts
whose sorted key tuples are all identical. -/
def isTradCandidate (data : List PyVal) : Bool :=
  match data with
  | [] => false
  | first :: rest =>
    (match first with
     | .dict es0 =>
       (rest.all (fun item =>
         match item with
         | .dict _ => true
         | _ => false)) &&
       (let k0 := sortStrings (es0.map Prod.fst)
        rest.all (fun item =>
          match item with
          | .dict es => sortStrings (es.map Prod.fst) == k0
          | _ => false))
     | _ => false)

/-- `TraditionalTable.create`: header row from the first item's keys in
insertion order, one row per item via `item.get(key, "")` and `format_value`,
equal column widths `total_width / num_cols`.  A non-dict item raises
`AttributeError`; zero columns raise `ZeroDivisionError` (both uncaught). -/
def tradTableCreate (data : List PyVal) : Except String (Option Block) :=
  if data.isEmpty then .ok Option.none
  else
    match data.head? with
    | some (.dict first) =>
      let allKeys := first.map Prod.fst
      let headerRow := allKeys.map capitalize_header_text
      match data.mapM (fun item =>
          match item with
          | .dict es =>
            Except.ok (allKeys.map (fun k =>
              format_value (pyDictGet es k (PyVal.str ""))))
          | _ => (Except.error "AttributeError: get" :
              Except String (List String))) with
      | .error e => .error e
      | .ok rows =>
        if allKeys.length = 0 then .error "ZeroDivisionError"
        else
          .ok (some (.tradTable headerRow rows
            (total_width / (allKeys.length : ℚ))))
    | _ => .error "AttributeError: keys"

/-- `ListTable.create`: one row per element with the synthetic 1-based label
`"{Section Name} {i}"`, fixed header width 1.5 * 72 = 108 points. -/
def listTableCreate (data : List PyVal) (section_name : String) :
    Option Block :=
  if data.isEmpty then Option.none
  else
    let header := capitalize_header_text section_name
    some (.listTable
      ((List.enumFrom 1 data).map
        (fun p => (header ++ " " ++ toString p.1, pyStr p.2)))
      108 (total_width - 108))

/-- The strategy choice of `PDFGenerator._create_dict_section`, in the
source's order: the `quality_check`/`found_lines` special case first, then
the `should_use_merged_cells` test (some value is a list with more than one
element); otherwise the plain dictionary table. -/
def dictSectionUsesMerged (section_name : String)
    (section_data : List (String × PyVal)) : Bool :=
  if section_name = "quality_check" &&
      (section_data.map Prod.fst).contains "found_lines" then true
  else if section_data.any (fun kv =>
      match kv.2 with
      | .list xs => xs.length > 1
      | _ => false) then true
  else false

/-- `PDFGenerator._create_dict_section`: the `quality_check`/`found_lines`
special case and the multi-element-list test select `MergedTable`, otherwise
`DictTable`; heading, table and spacer are emitted only when a table was
produced. -/
def createDictSection (section_name : String)
    (section_data : List (String × PyVal)) : Except String (List Block) :=
  let tableE : Except String (Option Block) :=
    if dictSectionUsesMerged section_name section_data then
      mergedTableCreate section_data
    else .ok (dictTableCreate section_data)
  match tableE with
  | .error e => .error e
  | .ok Option.none => .ok []
  | .ok (some t) =>
    .ok [.para .heading (capitalize_header_text section_name), t, .spacer 1 8]

/-- `PDFGenerator._create_list_section`: nothing for an empty list; otherwise
the heading followed by a traditional table (uniform dicts) or a list table;
the heading is appended before the table is built, so a `None` table leaves a
bare heading. -/
def createListSection (section_name : String) (data : List PyVal) :
    Except String (List Block) :=
  if data.isEmpty then .ok []
  else
    let tableE : Except String (Option Block) :=
      if isTradCandidate data then tradTableCreate data
      else .ok (listTableCreate data section_name)
    match tableE with
    | .error e => .error e
    | .ok Option.none =>
      .ok [.para .heading (capitalize_header_text section_name)]
    | .ok (some t) =>
      .ok [.para .heading (capitalize_header_text section_name), t,
        .spacer 1 8]

/-- `PDFGenerator._create_simple_section`: heading, then a plain paragraph
for long stringified values (more than 100 characters) or a value box for
short ones, then a spacer. -/
def createSimpleSection (section_name : String) (v : PyVal) : List Block :=
  let valueText := pyStr v
  [.para .heading (capitalize_header_text section_name)] ++
    (if valueText.length > 100 then [Block.para .normal valueText]
     else [Block.valueBox valueText]) ++
    [.spacer 1 8]

/-- Dispatch of one section by the shape of its payload
(`PDFGenerator._create_content_sections` loop body). -/
def sectionBlocks (kv : String × PyVal) : Except String (List Block) :=
  match kv.2 with
  | .dict es => createDictSection kv.1 es
  | .list xs => createListSection kv.1 xs
  | other => .ok (createSimpleSection kv.1 other)

/-- `PDFGenerator._create_content_sections`: every section except the `title`
key, in insertion order; an exception aborts the whole build. -/
def contentSections : List (String × PyVal) → Except String (List Block)
  | [] => .ok []
  | kv :: rest =>
    if kv.1 = "title" then contentSections rest
    else
      match sectionBlocks kv with
      | .error e => .error e
      | .ok bs =>
        match contentSections rest with
        | .error e => .error e
        | .ok rs => .ok (bs ++ rs)

/-- `PDFGenerator._create_title_section`: the raw title value (default
`"Report"`), a spacer, the title divider, a spacer. -/
def titleSectionBlocks (d : List (String × PyVal)) : List Block :=
  [.titlePara (pyDictGet d "title" (.str "Report")), .spacer 1 15,
   .titleDivider, .spacer 1 10]

/-- `PDFGenerator._create_footer_section`: spacer, footer divider, and the
generation timestamp (the wall clock is an input of the model). -/
def footerSectionBlocks (nowText : String) : List Block :=
  [.spacer 1 30, .footerDivider, .para .footer nowText]

/-- `PDFGenerator._build_story`: title section, content sections, footer.
A non-dict payload raises (`.get`/`.items` on a non-dict) before anything is
rendered. -/
def buildStory (v : PyVal) (nowText : String) : Except String (List Block) :=
  match v with
  | .dict d =>
    match contentSections d with
    | .error e => .error e
    | .ok cs => .ok (titleSectionBlocks d ++ cs ++ footerSectionBlocks nowText)
  | _ => .error "AttributeError: report_data is not a dict"

/-- The JSON branch of scripts/generate_report.py `main` (equally the
`create_pdf_report` path of pdf_generator/run.py): parse `REPORT_DATA`
(any failure, including the `ValueError` re-raised by `parse_json_data`, is
caught and exits 1 before any file exists); build the story (any exception is
caught and exits 1, still before `doc.build` opens the output file); only a
successful `doc.build` writes `{filename}.pdf`.  The result is the exit code
and the list of files written. -/
def generate_report_json (reportData outputFilename nowText : String) :
    Nat × List String :=
  match json_loads reportData with
  | Option.none => (1, [])
  | some v =>
    match buildStory v nowText with
    | .error _ => (1, [])
    | .ok _ => (0, [outputFilename ++ ".pdf"])

/-- From the spec's words (claim C2), not from the source: the keyword test
applied to the section key / field name rather than to the value. -/
def specKeyLooksTimestamp (key : String) : Bool :=
  timestampKeywords.any (fun kw => pyContains (pyLower key) kw)

/-- `pyContains` decides the substring relation. -/
theorem pyContains_iff (hay sub : String) :
    pyContains hay sub = true ↔ sub.toList <:+: hay.toList := by
  unfold pyContains
  generalize sub.toList = needle
  induction hay.toList with
  | nil =>
    unfold listContainsSub
    rw [List.infix_nil]
    exact ⟨fun h => List.isEmpty_iff.mp h, fun h => by simp [h, List.isEmpty]⟩
  | cons c cs ih =>
    unfold listContainsSub
    rw [Bool.or_eq_true, List.infix_cons_iff, ih]
    constructor
    · rintro (h | h)
      · exact Or.inl ( List.isPrefixOf_iff_prefix.mp h)
      · exact Or.inr h
    · rintro (h | h)
      · exact Or.inl ( List.isPrefixOf_iff_prefix.mpr h)
      · exact Or.inr h

/-- C2 is false as stated: under the key `start_time` — which contains the
keyword `time`, so the claim requires ISO-8601 reformatting — the valid ISO
value `2024-01-15T10:30:00Z` is rendered unchanged by the dictionary table,
although reformatting would have produced `Jan 15, 2024 at 05:30 AM EST`:
`format_value` tests the keywords against the value, not the key. -/
theorem C2_counterexample :
    specKeyLooksTimestamp "start_time" = true ∧
    dictTableCreate [("start_time", PyVal.str "2024-01-15T10:30:00Z")] =
      some (Block.dictTable [("Start Time", "2024-01-15T10:30:00Z")]
        (calcColumnWidths
          [("start_time", PyVal.str "2024-01-15T10:30:00Z")]).1
        (calcColumnWidths
          [("start_time", PyVal.str "2024-01-15T10:30:00Z")]).2) ∧
    format_timestamp "2024-01-15T10:30:00Z" =
      "Jan 15, 2024 at 05:30 AM EST" ∧
    ("2024-01-15T10:30:00Z" : String) ≠ "Jan 15, 2024 at 05:30 AM EST" :=
  ⟨rfl, rfl, rfl, by decide⟩

/-- C2, amended: a string value is ISO-8601-reformatted if and only if the
VALUE itself contains `time`, `date` or `timestamp` as a case-insensitive
substring; every other string value is rendered unchanged, and the rendered
value cell of a dictionary row never depends on the key. -/
theorem C2_value_based_formatting (key s : String) :
    (format_value (PyVal.str s) =
      if valueLooksTimestamp s then format_timestamp s else s) ∧
    (valueLooksTimestamp s = true ↔
      ∃ kw ∈ timestampKeywords, kw.toList <:+: (pyLower s).toList) ∧
    dictTableCreate [(key, PyVal.str s)] =
      some (Block.dictTable
        [(capitalize_header_text key, format_value (PyVal.str s))]
        (calcColumnWidths [(key, PyVal.str s)]).1
        (calcColumnWidths [(key, PyVal.str s)]).2) := by
  refine ⟨rfl, ?_, rfl⟩
  unfold valueLooksTimestamp
  rw [List.any_eq_true]
  constructor
  · rintro ⟨kw, hkw, h⟩
    exact ⟨kw, hkw, (pyContains_iff _ _).mp h⟩
  · rintro ⟨kw, hkw, h⟩
    exact ⟨kw, hkw, (pyContains_iff _ _).mpr h⟩

/-- Does a section build result contain a merged-cell table? -/
def storyHasMergedTable (r : Except String (List Block)) : Bool :=
  match r with
  | .ok bs => bs.any (fun b =>
      match b with
      | .mergedTable _ _ _ _ => true
      | _ => false)
  | .error _ => false

/-- C3 is false as stated: the section `quality_check` with payload
`{"found_lines": "hello"}` contains no list value at all — so the claim
requires the Label/Value strategy — yet the source's special case selects the
Merged-Cell table. -/
theorem C3_counterexample :
    storyHasMergedTable
      (createDictSection "quality_check"
        [("found_lines", PyVal.str "hello")]) = true ∧
    ([("found_lines", PyVal.str "hello")].any (fun kv =>
      match kv.2 with
      | PyVal.list xs => xs.length > 1
      | _ => false)) = false :=
  ⟨rfl, rfl⟩

/-- C3, amended: the Merged-Cell strategy is selected iff some value of the
mapping is a list with more than one element OR the section is named
`quality_check` and contains the key `found_lines`; otherwise the Label/Value
table is selected, with two columns and one row per key in insertion order. -/
theorem C3_strategy_selection (name : String)
    (data : List (String × PyVal)) :
    (dictSectionUsesMerged name data =
      ((name = "quality_check" &&
          (data.map Prod.fst).contains "found_lines")
        || data.any (fun kv =>
            match kv.2 with
            | PyVal.list xs => xs.length > 1
            | _ => false))) ∧
    (dictSectionUsesMerged name data = false →
      createDictSection name data =
        match dictTableCreate data with
        | Option.none => .ok []
        | some t =>
          .ok [.para .heading (capitalize_header_text name), t,
            .spacer 1 8]) ∧
    (data ≠ [] →
      dictTableCreate data =
        some (Block.dictTable
          (data.map (fun kv =>
            (capitalize_header_text kv.1, format_value kv.2)))
          (calcColumnWidths data).1 (calcColumnWidths data).2)) := by
  refine ⟨?_, ?_, ?_⟩
  · unfold dictSectionUsesMerged
    cases hs : (decide (name = "quality_check") &&
        (data.map Prod.fst).contains "found_lines") with
    | true => simp
    | false =>
      cases hm : (data.any (fun kv =>
          match kv.2 with
          | PyVal.list xs => xs.length > 1
          | _ => false)) with
      | true => simp [hm]
      | false => simp [hm]
  · intro h
    simp only [createDictSection, h, Bool.false_eq_true, if_false]
    rcases dictTableCreate data with _ | t <;> rfl
  · intro h
    unfold dictTableCreate
    rw [if_neg (by simpa [List.isEmpty_iff] using h)]

/-- Closed instance of the amended C3: a plain one-key mapping selects the
Label/Value table with its single row. -/
theorem C3_strategy_selection_witness :
    dictTableCreate [("k", PyVal.str "v")] =
      some (Block.dictTable [("K", "v")]
        (calcColumnWidths [("k", PyVal.str "v")]).1
        (calcColumnWidths [("k", PyVal.str "v")]).2) :=
  (C3_strategy_selection "metrics" [("k", PyVal.str "v")]).2.2 (by simp)

/-- C6: a `REPORT_DATA` string that is not valid JSON makes the PDF path exit
with code 1 without writing any file. -/
theorem C6_malformed_json_no_output (s fn now : String)
    (h : json_loads s = Option.none) :
    generate_report_json s fn now = (1, []) := by
  unfold generate_report_json
  rw [h]

/-- Closed instance of C6 at the malformed payload `"not valid json"`. -/
theorem C6_malformed_json_no_output_witness :
    generate_report_json "not valid json" "report" "now" = (1, []) :=
  C6_malformed_json_no_output "not valid json" "report" "now" rfl

/-- C8: a `found_lines` value that is a string but not valid JSON falls back
to a single-element list holding the raw string, and the merged-cell section
builds successfully with exactly one row carrying the raw value (no abort). -/
theorem C8_found_lines_fallback (s : String)
    (h : json_loads s = Option.none) :
    flattenFoundLines (PyVal.str s) = .ok [PyVal.str s] ∧
    createDictSection "quality_check" [("found_lines", PyVal.str s)] =
      .ok [.para .heading (capitalize_header_text "quality_check"),
        .mergedTable [(capitalize_header_text "found_lines", s)]
          (calcColumnWidths [("found_lines", PyVal.str s)]).1
          (calcColumnWidths [("found_lines", PyVal.str s)]).2 [],
        .spacer 1 8] := by
  have hf : flattenFoundLines (PyVal.str s) = .ok [PyVal.str s] := by
    simp only [flattenFoundLines]
    rw [h]
  refine ⟨hf, ?_⟩
  have hm : mergedRowsAux [("found_lines", PyVal.str s)] 0 =
      .ok ([(capitalize_header_text "found_lines", s)], [(0, 0)]) := by
    simp [mergedRowsAux, hf, pyStr]
  have hmc : mergedTableCreate [("found_lines", PyVal.str s)] =
      .ok (some (.mergedTable [(capitalize_header_text "found_lines", s)]
        (calcColumnWidths [("found_lines", PyVal.str s)]).1
        (calcColumnWidths [("found_lines", PyVal.str s)]).2 [])) := by
    simp [mergedTableCreate, hm]
  simp [createDictSection, hmc, dictSectionUsesMerged]

/-- Closed instance of C8 at the non-JSON string `"not json"`. -/
theorem C8_found_lines_fallback_witness :
    flattenFoundLines (PyVal.str "not json") =
      .ok [PyVal.str "not json"] ∧
    createDictSection "quality_check" [("found_lines", PyVal.str "not json")] =
      .ok [.para .heading (capitalize_header_text "quality_check"),
        .mergedTable [(capitalize_header_text "found_lines", "not json")]
          (calcColumnWidths [("found_lines", PyVal.str "not json")]).1
          (calcColumnWidths [("found_lines", PyVal.str "not json")]).2 [],
        .spacer 1 8] :=
  C8_found_lines_fallback "not json" rfl

/-- The header widths of the dictionary tables of a built story, in order. -/
def dictTableHeaderWidths (r : Except String (List Block)) : List ℚ :=
  match r with
  | .ok bs => bs.filterMap (fun b =>
      match b with
      | .dictTable _ hw _ => some hw
      | _ => Option.none)
  | .error _ => []

/-- The 811-character key used by the C4 counterexample (long enough that
`len * header_char_width + header_padding` exceeds `min_header_width`). -/
def longKey : String :=
  String.mk (List.replicate 811 'a')

set_option maxRecDepth 8192 in
/-- C4 is false as stated: the label-column width is computed per table from
that table's own keys, not once across all dictionary-style sections.  In a
document with one short-keyed section and one section whose key is 811
characters long, the two label columns get different widths (86.4 vs 86.48
points).  (Within one table the width pair is applied to every row by
construction: ReportLab receives a single `colWidths` list per table.) -/
theorem C4_counterexample :
    dictTableHeaderWidths (buildStory (PyVal.dict
        [("a", PyVal.dict [("k", PyVal.str "v")]),
         ("b", PyVal.dict [(longKey, PyVal.str "w")])]) "ts") =
      [(calcColumnWidths [("k", PyVal.str "v")]).1,
       (calcColumnWidths [(longKey, PyVal.str "w")]).1] ∧
    (calcColumnWidths [("k", PyVal.str "v")]).1 ≠
      (calcColumnWidths [(longKey, PyVal.str "w")]).1 := by
  constructor
  · rfl
  · have h1 : (calcColumnWidths [("k", PyVal.str "v")]).1 =
        max min_header_width
          ((1 : ℚ) * header_char_width + header_padding) := by
      have hk : maxKeyLen [("k", PyVal.str "v")] = 1 := rfl
      simp [calcColumnWidths, hk]
    have h2 : (calcColumnWidths [(longKey, PyVal.str "w")]).1 =
        max min_header_width
          ((811 : ℚ) * header_char_width + header_padding) := by
      have hk : maxKeyLen [(longKey, PyVal.str "w")] = 811 := rfl
      simp [calcColumnWidths, hk]
    rw [h1, h2]
    norm_num [min_header_width, header_char_width, header_padding, max_def]

/-- C4, amended: for every non-empty dictionary-style table the label column
width equals `max(min_width, longest_rendered_label_length * per_char_width
+ padding)` computed from that table's own keys, the value column takes the
remainder of the fixed total width, and the single column-width pair is
applied to every row of that table; the width is not shared across
sections. -/
theorem C4_width_formula (data : List (String × PyVal)) (h : data ≠ []) :
    dictTableCreate data =
      some (Block.dictTable
        (data.map (fun kv =>
          (capitalize_header_text kv.1, format_value kv.2)))
        (max min_header_width
          ((maxKeyLen data : ℚ) * header_char_width + header_padding))
        (total_width -
          max min_header_width
            ((maxKeyLen data : ℚ) * header_char_width + header_padding))) := by
  unfold dictTableCreate calcColumnWidths
  rw [if_neg (by simpa [List.isEmpty_iff] using h)]

/-- Closed instance of the amended C4. -/
theorem C4_width_formula_witness :
    dictTableCreate [("k", PyVal.str "v")] =
      some (Block.dictTable [("K", "v")]
        (max min_header_width
          ((maxKeyLen [("k", PyVal.str "v")] : ℚ) * header_char_width +
            header_padding))
        (total_width -
          max min_header_width
            ((maxKeyLen [("k", PyVal.str "v")] : ℚ) * header_char_width +
              header_padding))) :=
  C4_width_formula [("k", PyVal.str "v")] (by simp)

/-- The heading text of a block, when it is a section heading. -/
def headingText? (b : Block) : Option String :=
  match b with
  | .para StyleTag.heading s => some s
  | _ => Option.none

/-- The heading texts of a block list, in order. -/
def storyHeadings (bs : List Block) : List String :=
  bs.filterMap headingText?

/-- A table produced by `DictTable.create` is a table, not a heading. -/
theorem dictTableCreate_notHeading (data : List (String × PyVal)) (t : Block)
    (h : dictTableCreate data = some t) : headingText? t = Option.none := by
  unfold dictTableCreate at h
  split at h
  · cases h
  · cases Option.some.inj h
    rfl

/-- A table produced by `MergedTable.create` is a table, not a heading. -/
theorem mergedTableCreate_notHeading (data : List (String × PyVal)) (t : Block)
    (h : mergedTableCreate data = .ok (some t)) :
    headingText? t = Option.none := by
  unfold mergedTableCreate at h
  split at h
  · cases h
  · split at h
    · cases h
    · split at h
      · cases h
      · cases Option.some.inj (Except.ok.inj h)
        rfl

/-- A table produced by `TraditionalTable.create` is a table, not a heading. -/
theorem tradTableCreate_notHeading (data : List PyVal) (t : Block)
    (h : tradTableCreate data = .ok (some t)) :
    headingText? t = Option.none := by
  unfold tradTableCreate at h
  split at h
  · cases h
  · split at h
    · dsimp only at h
      split at h
      · cases h
      · split at h
        · cases h
        · cases Option.some.inj (Except.ok.inj h)
          rfl
    · cases h

/-- A table produced by `ListTable.create` is a table, not a heading. -/
theorem listTableCreate_notHeading (data : List PyVal) (name : String)
    (t : Block) (h : listTableCreate data name = some t) :
    headingText? t = Option.none := by
  unfold listTableCreate at h
  split at h
  · cases h
  · cases Option.some.inj h
    rfl

/-- A heading-table-spacer section has exactly its heading. -/
theorem storyHeadings_section (c : String) (t : Block) (q : ℚ)
    (hnt : headingText? t = Option.none) :
    storyHeadings [Block.para StyleTag.heading c, t, Block.spacer 1 q] =
      [c] := by
  simp only [storyHeadings, List.filterMap_cons, hnt, List.filterMap_nil]
  rfl

/-- Every section contributes at most its own heading, first. -/
theorem sectionBlocks_headings (kv : String × PyVal) (bs : List Block)
    (h : sectionBlocks kv = .ok bs) :
    (storyHeadings bs).Sublist [capitalize_header_text kv.1] := by
  obtain ⟨k, v⟩ := kv
  cases v with
  | dict es =>
    simp only [sectionBlocks] at h
    unfold createDictSection at h
    by_cases hm : dictSectionUsesMerged k es = true
    · rw [if_pos hm] at h
      rcases ht : mergedTableCreate es with e | ot
      · rw [ht] at h; cases h
      · rw [ht] at h
        cases ot with
        | none =>
          cases Except.ok.inj h
          simp [storyHeadings]
        | some t =>
          cases Except.ok.inj h
          have hnt := mergedTableCreate_notHeading es t ht
          rw [storyHeadings_section _ t _ hnt]
    · rw [if_neg hm] at h
      rcases ht : dictTableCreate es with _ | t
      · rw [ht] at h
        cases Except.ok.inj h
        simp [storyHeadings]
      · rw [ht] at h
        cases Except.ok.inj h
        have hnt := dictTableCreate_notHeading es t ht
        rw [storyHeadings_section _ t _ hnt]
  | list xs =>
    simp only [sectionBlocks] at h
    unfold createListSection at h
    split at h
    · cases Except.ok.inj h
      simp [storyHeadings]
    · by_cases hc : isTradCandidate xs = true
      · rw [if_pos hc] at h
        rcases ht : tradTableCreate xs with e | ot
        · rw [ht] at h; cases h
        · rw [ht] at h
          cases ot with
          | none =>
            cases Except.ok.inj h
            simp [storyHeadings, List.filterMap_cons, headingText?]
          | some t =>
            cases Except.ok.inj h
            have hnt := tradTableCreate_notHeading xs t ht
            rw [storyHeadings_section _ t _ hnt]
      · rw [if_neg hc] at h
        rcases ht : listTableCreate xs k with _ | t
        · rw [ht] at h
          cases Except.ok.inj h
          simp [storyHeadings, List.filterMap_cons, headingText?]
        · rw [ht] at h
          cases Except.ok.inj h
          have hnt := listTableCreate_notHeading xs k t ht
          rw [storyHeadings_section _ t _ hnt]
  | str s =>
    simp only [sectionBlocks] at h
    cases Except.ok.inj h
    by_cases hl : (pyStr (PyVal.str s)).length > 100 <;>
      simp [createSimpleSection, storyHeadings, List.filterMap_cons,
        headingText?, hl]
  | int n =>
    simp only [sectionBlocks] at h
    cases Except.ok.inj h
    by_cases hl : (pyStr (PyVal.int n)).length > 100 <;>
      simp [createSimpleSection, storyHeadings, List.filterMap_cons,
        headingText?, hl]
  | float lit =>
    simp only [sectionBlocks] at h
    cases Except.ok.inj h
    by_cases hl : (pyStr (PyVal.float lit)).length > 100 <;>
      simp [createSimpleSection, storyHeadings, List.filterMap_cons,
        headingText?, hl]
  | bool b =>
    simp only [sectionBlocks] at h
    cases Except.ok.inj h
    by_cases hl : (pyStr (PyVal.bool b)).length > 100 <;>
      simp [createSimpleSection, storyHeadings, List.filterMap_cons,
        headingText?, hl]
  | none =>
    simp only [sectionBlocks] at h
    cases Except.ok.inj h
    by_cases hl : (pyStr PyVal.none).length > 100 <;>
      simp [createSimpleSection, storyHeadings, List.filterMap_cons,
        headingText?, hl]

/-- The headings of the content sections are a sublist of the capitalised
non-title keys in insertion order. -/
theorem contentSections_headings (d : List (String × PyVal))
    (cs : List Block) (h : contentSections d = .ok cs) :
    (storyHeadings cs).Sublist
      (((d.map Prod.fst).filter (fun k => k ≠ "title")).map
        capitalize_header_text) := by
  induction d generalizing cs with
  | nil =>
    cases Except.ok.inj h
    simp [storyHeadings]
  | cons kv rest ih =>
    unfold contentSections at h
    by_cases hk : kv.1 = "title"
    · rw [if_pos hk] at h
      have := ih cs h
      simpa [hk] using this
    · rw [if_neg hk] at h
      rcases hsb : sectionBlocks kv with e | bs0
      · rw [hsb] at h; cases h
      · rw [hsb] at h
        rcases hcr : contentSections rest with e | rs
        · rw [hcr] at h; cases h
        · rw [hcr] at h
          cases Except.ok.inj h
          rw [storyHeadings, List.filterMap_append]
          have h1 := sectionBlocks_headings kv bs0 hsb
          have h2 := ih rs hcr
          rw [storyHeadings] at h1 h2
          have hf : ((kv :: rest).map Prod.fst).filter (fun k => k ≠ "title") =
              kv.1 :: ((rest.map Prod.fst).filter (fun k => k ≠ "title")) := by
            simp [hk]
          rw [hf, List.map_cons]
          exact List.Sublist.append h1 h2

/-- C9: a successfully built story starts with the title paragraph (the raw
`title` value, default `"Report"`), and its section headings respect the
input mapping: they are a sublist of the capitalised non-title keys in
insertion order, so the `title` key is never rendered as a content section
and no section appears out of order. -/
theorem C9_section_order (d : List (String × PyVal)) (now : String)
    (story : List Block)
    (h : buildStory (PyVal.dict d) now = .ok story) :
    story.head? = some (Block.titlePara
      (pyDictGet d "title" (PyVal.str "Report"))) ∧
    (storyHeadings story).Sublist
      (((d.map Prod.fst).filter (fun k => k ≠ "title")).map
        capitalize_header_text) := by
  simp only [buildStory] at h
  rcases hcs : contentSections d with e | cs
  · rw [hcs] at h; cases h
  · rw [hcs] at h
    cases Except.ok.inj h
    constructor
    · rfl
    · have h1 : storyHeadings (titleSectionBlocks d) = [] := rfl
      have h2 : storyHeadings (footerSectionBlocks now) = [] := rfl
      rw [storyHeadings, List.filterMap_append, List.filterMap_append]
      rw [storyHeadings] at h1 h2
      rw [h1, h2]
      have h3 := contentSections_headings d cs hcs
      rw [storyHeadings] at h3
      simpa using h3

/-- Closed instance of C9 on a two-section report. -/
theorem C9_section_order_witness :
    ([Block.titlePara (PyVal.str "T"), Block.spacer 1 15, Block.titleDivider,
      Block.spacer 1 10, Block.para StyleTag.heading "Status",
      Block.valueBox "ok", Block.spacer 1 8, Block.spacer 1 30,
      Block.footerDivider,
      Block.para StyleTag.footer "now"].head? = some (Block.titlePara
        (pyDictGet [("title", PyVal.str "T"), ("status", PyVal.str "ok")]
          "title" (PyVal.str "Report")))) ∧
    (storyHeadings [Block.titlePara (PyVal.str "T"), Block.spacer 1 15,
      Block.titleDivider, Block.spacer 1 10,
      Block.para StyleTag.heading "Status", Block.valueBox "ok",
      Block.spacer 1 8, Block.spacer 1 30, Block.footerDivider,
      Block.para StyleTag.footer "now"]).Sublist
      ((([("title", PyVal.str "T"),
          ("status", PyVal.str "ok")].map Prod.fst).filter
        (fun k => k ≠ "title")).map capitalize_header_text) :=
  C9_section_order [("title", PyVal.str "T"), ("status", PyVal.str "ok")]
    "now" _ rfl

/-- Looking a key up in a dict is unaffected by an entry with a different
key. -/
theorem lookup_middle_ne (k : String) (x : String × PyVal)
    (pre post : List (String × PyVal)) (hx : x.1 ≠ k) :
    List.lookup k (pre ++ x :: post) = List.lookup k (pre ++ post) := by
  induction pre with
  | nil =>
    have hkx : (k == x.1) = false :=
      beq_eq_false_iff_ne.mpr (fun he => hx he.symm)
    obtain ⟨x1, x2⟩ := x
    simp only [List.nil_append, List.lookup]
    rw [hkx]
  | cons p ps ih =>
    obtain ⟨p1, p2⟩ := p
    simp only [List.cons_append, List.lookup]
    cases hpk : (k == p1) with
    | true => rfl
    | false => exact ih

/-- A section that renders no blocks can be removed from the middle of the
report without changing the content sections. -/
theorem contentSections_middle (x : String × PyVal)
    (pre post : List (String × PyVal)) (hx : x.1 ≠ "title")
    (hsb : sectionBlocks x = .ok []) :
    contentSections (pre ++ x :: post) = contentSections (pre ++ post) := by
  induction pre with
  | nil =>
    simp only [List.nil_append]
    rw [contentSections]
    rw [if_neg hx, hsb]
    rcases hcp : contentSections post with e | rs <;> simp [hcp]
  | cons p ps ih =>
    simp only [List.cons_append]
    rw [contentSections, contentSections, ih]

/-- C10: a non-title section whose payload is an empty mapping or an empty
list contributes no blocks at all — no heading, no table, no value box — and
every other part of the story (title, the other sections in order, footer) is
unchanged: the story equals the story of the report without that section. -/
theorem C10_empty_section_invisible (pre post : List (String × PyVal))
    (k : String) (now : String) (hk : k ≠ "title") :
    buildStory (PyVal.dict (pre ++ (k, PyVal.dict []) :: post)) now =
      buildStory (PyVal.dict (pre ++ post)) now ∧
    buildStory (PyVal.dict (pre ++ (k, PyVal.list []) :: post)) now =
      buildStory (PyVal.dict (pre ++ post)) now := by
  have hd : sectionBlocks (k, PyVal.dict []) = .ok [] := by
    have hm : dictSectionUsesMerged k [] = false := by
      simp [dictSectionUsesMerged]
    simp [sectionBlocks, createDictSection, hm, dictTableCreate]
  have hl : sectionBlocks (k, PyVal.list []) = .ok [] := by
    simp [sectionBlocks, createListSection]
  have htd : pyDictGet (pre ++ (k, PyVal.dict []) :: post) "title"
      (PyVal.str "Report") = pyDictGet (pre ++ post) "title"
      (PyVal.str "Report") := by
    unfold pyDictGet
    rw [lookup_middle_ne "title" _ pre post hk]
  have htl : pyDictGet (pre ++ (k, PyVal.list []) :: post) "title"
      (PyVal.str "Report") = pyDictGet (pre ++ post) "title"
      (PyVal.str "Report") := by
    unfold pyDictGet
    rw [lookup_middle_ne "title" _ pre post hk]
  constructor
  · simp only [buildStory, titleSectionBlocks, htd,
      contentSections_middle _ pre post hk hd]
  · simp only [buildStory, titleSectionBlocks, htl,
      contentSections_middle _ pre post hk hl]

/-- Closed instance of C10: removing an empty-dict section and an empty-list
section from a concrete report leaves the story unchanged. -/
theorem C10_empty_section_invisible_witness :
    buildStory (PyVal.dict [("title", PyVal.str "T"),
        ("empty_section", PyVal.dict []), ("note", PyVal.str "hi")]) "now" =
      buildStory (PyVal.dict [("title", PyVal.str "T"),
        ("note", PyVal.str "hi")]) "now" ∧
    buildStory (PyVal.dict [("title", PyVal.str "T"),
        ("empty_section", PyVal.list []), ("note", PyVal.str "hi")]) "now" =
      buildStory (PyVal.dict [("title", PyVal.str "T"),
        ("note", PyVal.str "hi")]) "now" :=
  C10_empty_section_invisible [("title", PyVal.str "T")]
    [("note", PyVal.str "hi")] "empty_section" "now" (by decide)
